import Mathlib

/-!
Shallow embedding of the VituBot status aggregation and classification engine
(`src/commands/status.py`, `src/commands/wifi.py`, `src/services/constants.py`,
`src/services/prtg.py`), together with theorems settling the specification
claims about it.

Machine integers are modelled as `Int` (status codes) and `Nat` (counters);
Python float division in the Clover-percentage computation is modelled with
exact rational arithmetic (`ℚ`); Python substring tests (`x in s`) are modelled
by an executable substring-containment function on character lists.
-/

/-- The five health tiers of `OverallStatus` in `src/commands/status.py`
(the emoji display strings attached to each enum member are presentation
only and are not modelled). -/
inductive OverallStatus where
  | healthy
  | degraded
  | critical
  | paused
  | unknown
deriving DecidableEq, Repr

/-- A PRTG sensor record (`Sensor` dataclass in `src/services/prtg.py`). -/
structure Sensor where
  device_name : String
  device_group : String
  status : String
  status_int : Int
deriving DecidableEq, Repr

/-- Does the second list occur at the head of the first list? Helper for
substring containment. -/
def charsHavePrefix : List Char → List Char → Bool
  | _, [] => true
  | [], _ :: _ => false
  | a :: as, b :: bs => a == b && charsHavePrefix as bs

/-- Does the second list occur contiguously anywhere inside the first list? -/
def charsHaveSubstr : List Char → List Char → Bool
  | [], needle => needle.isEmpty
  | a :: as, needle => charsHavePrefix (a :: as) needle || charsHaveSubstr as needle

/-- Python's substring test `needle in haystack`. -/
def strContains (haystack needle : String) : Bool :=
  charsHaveSubstr haystack.toList needle.toList

/-- Python's `str.strip()`: drop leading and trailing whitespace. -/
def pyStrip (s : String) : String :=
  ⟨((s.data.dropWhile Char.isWhitespace).reverse.dropWhile Char.isWhitespace).reverse⟩

/-- Python's `str.lower()` (ASCII case folding). -/
def pyLower (s : String) : String :=
  ⟨s.data.map Char.toLower⟩

/-- `GroupType.NETWORK_DEVICES.value` from `src/services/prtg.py`. -/
def NETWORK_DEVICES_MARKER : String := "Network Devices"

/-- `GroupType.CLOVER_DEVICES.value` from `src/services/prtg.py`. -/
def CLOVER_DEVICES_MARKER : String := "Clover Devices"

/-- The status-code classification chain inlined in
`ProbeDeviceStatus.__init__` (status.py lines 73-84). -/
def probeStatusClassify (n : Int) : OverallStatus :=
  if n = 3 then OverallStatus.healthy
  else if n ∈ ([2, 4, 6, 10, 11, 14] : List Int) then OverallStatus.degraded
  else if n ∈ ([7, 8, 9, 12] : List Int) then OverallStatus.paused
  else OverallStatus.critical

/-- The status-code classification chain inlined in the sensor loop of
`NetworkGroupStatus.__init__` (status.py lines 226-238). -/
def networkStatusClassify (n : Int) : OverallStatus :=
  if n = 3 then OverallStatus.healthy
  else if n ∈ ([2, 4, 6, 10, 11, 14] : List Int) then OverallStatus.degraded
  else if n ∈ ([7, 8, 9, 12] : List Int) then OverallStatus.paused
  else OverallStatus.critical

/-- The status-code classification chain inlined in the sensor loop of
`CloverGroupStatus.__init__` (status.py lines 349-361). -/
def cloverStatusClassify (n : Int) : OverallStatus :=
  if n = 3 then OverallStatus.healthy
  else if n ∈ ([2, 4, 6, 10, 11, 14] : List Int) then OverallStatus.degraded
  else if n ∈ ([7, 8, 9, 12] : List Int) then OverallStatus.paused
  else OverallStatus.critical

/-- The `ProbeDeviceStatus` object of `src/commands/status.py` after
`__init__` has run. -/
structure ProbeDeviceStatus where
  probe_health_sensor : Sensor
  primary_interface_sensor : Sensor
  primary_interface_description : String
  is_lte_only : Bool
  overall_status : OverallStatus
deriving DecidableEq, Repr

/-- `ProbeDeviceStatus.__init__` (status.py lines 55-104): sets
`is_lte_only` from the `'LTE Only'` substring test on the health sensor's
device group, classifies the health sensor's status code into the base
overall status, then determines the failover description (overriding the
overall status to Degraded on a failover at a non-LTE-only site). -/
def ProbeDeviceStatus.init (probe_health_sensor primary_interface_sensor : Sensor) :
    ProbeDeviceStatus :=
  let is_lte_only := strContains probe_health_sensor.device_group "LTE Only"
  let base := probeStatusClassify probe_health_sensor.status_int
  if probe_health_sensor.status_int = 3 then
    if primary_interface_sensor.status_int = 3 then
      ⟨probe_health_sensor, primary_interface_sensor,
        "Site is on ISP connection", is_lte_only, base⟩
    else if is_lte_only then
      ⟨probe_health_sensor, primary_interface_sensor,
        "Site is on LTE connection", is_lte_only, base⟩
    else
      ⟨probe_health_sensor, primary_interface_sensor,
        "Site has failed over to LTE connection", is_lte_only, OverallStatus.degraded⟩
  else
    ⟨probe_health_sensor, primary_interface_sensor,
      "Site is down", is_lte_only, base⟩

/-- The `NetworkGroupStatus` object of `src/commands/status.py` after
`__init__` has run. Python attributes that may remain unset or `None` are
modelled as `Option` fields. -/
structure NetworkGroupStatus where
  name : Option String
  overall_status : OverallStatus
  pi_lte_dongle : Option Sensor
  meraki_device : Option Sensor
  router : Option Sensor
  pdu : Option Sensor
  vitupay_com : Option Sensor
  pi_device : Option Sensor
  clover_com : Option Sensor
  up_devices : Nat
  warning_devices : Nat
  paused_devices : Nat
  down_devices : Nat
deriving DecidableEq, Repr

/-- The six fixed infrastructure roles of `NetworkGroupStatus`. -/
inductive NetworkRole where
  | merakiDevice
  | routerDevice
  | pduDevice
  | vitupayCom
  | piDevice
  | cloverCom
deriving DecidableEq, Repr

/-- The role-recognition if/elif chain of `NetworkGroupStatus.__init__`
(status.py lines 208-224): the lower-cased device name decides which role
field receives the sensor, in this precedence order; an unrecognized name
yields `none` (the Python `continue`, which skips the status counting). -/
def networkRoleOf (s : Sensor) : Option NetworkRole :=
  let device_name_lower := pyLower s.device_name
  if strContains device_name_lower "meraki" then some NetworkRole.merakiDevice
  else if strContains device_name_lower "router" then some NetworkRole.routerDevice
  else if strContains device_name_lower "pdu" then some NetworkRole.pduDevice
  else if strContains device_name_lower "vitupay" then some NetworkRole.vitupayCom
  else if strContains device_name_lower "pi" then some NetworkRole.piDevice
  else if strContains device_name_lower "d.clover.com" then some NetworkRole.cloverCom
  else none

/-- Store the sensor in the role field selected by the recognition chain
(`self.meraki_device = ping_sensor`, etc.). -/
def networkSetRole (st : NetworkGroupStatus) (r : NetworkRole) (s : Sensor) :
    NetworkGroupStatus :=
  match r with
  | NetworkRole.merakiDevice => { st with meraki_device := some s }
  | NetworkRole.routerDevice => { st with router := some s }
  | NetworkRole.pduDevice => { st with pdu := some s }
  | NetworkRole.vitupayCom => { st with vitupay_com := some s }
  | NetworkRole.piDevice => { st with pi_device := some s }
  | NetworkRole.cloverCom => { st with clover_com := some s }

/-- The status-counting chain of `NetworkGroupStatus.__init__` (status.py
lines 226-238): exactly one of the four counters is incremented, according
to the inlined classification chain `networkStatusClassify`. -/
def networkCountSensor (st : NetworkGroupStatus) (s : Sensor) : NetworkGroupStatus :=
  match networkStatusClassify s.status_int with
  | OverallStatus.healthy => { st with up_devices := st.up_devices + 1 }
  | OverallStatus.degraded => { st with warning_devices := st.warning_devices + 1 }
  | OverallStatus.paused => { st with paused_devices := st.paused_devices + 1 }
  | _ => { st with down_devices := st.down_devices + 1 }

/-- One iteration of the `for ping_sensor in all_probe_ping_sensors` loop in
`NetworkGroupStatus.__init__` (status.py lines 202-238): sensors whose
device group contains the network marker set the group name, are assigned a
role (or skipped when unrecognized), and are counted. -/
def networkGroupStep (st : NetworkGroupStatus) (s : Sensor) : NetworkGroupStatus :=
  if strContains s.device_group NETWORK_DEVICES_MARKER then
    let st1 := { st with name := some s.device_group }
    match networkRoleOf s with
    | none => st1
    | some r => networkCountSensor (networkSetRole st1 r s) s
  else st

/-- The group-tier decision chain of `NetworkGroupStatus.__init__`
(status.py lines 240-255). -/
def networkOverall (up_devices warning_devices paused_devices down_devices : Nat) :
    OverallStatus :=
  if up_devices = 7 then OverallStatus.healthy
  else if up_devices = 6 ∨
      warning_devices > up_devices + paused_devices + down_devices then
    OverallStatus.degraded
  else if paused_devices > up_devices + warning_devices + down_devices then
    OverallStatus.paused
  else if up_devices ≤ 5 then OverallStatus.critical
  else OverallStatus.unknown

/-- The state of `NetworkGroupStatus.__init__` before the sensor loop
(status.py lines 196-199): the Pi LTE dongle sensor is stored and, when
present with status code 3, seeds the up count with 1. -/
def networkSeedState (site_pi_lte_dongle_sensor : Option Sensor) : NetworkGroupStatus :=
  { name := none,
    overall_status := OverallStatus.unknown,
    pi_lte_dongle := site_pi_lte_dongle_sensor,
    meraki_device := none,
    router := none,
    pdu := none,
    vitupay_com := none,
    pi_device := none,
    clover_com := none,
    up_devices :=
      match site_pi_lte_dongle_sensor with
      | some d => if d.status_int = 3 then 1 else 0
      | none => 0,
    warning_devices := 0,
    paused_devices := 0,
    down_devices := 0 }

/-- `NetworkGroupStatus.__init__` (status.py lines 184-255), continued:
folds the role/count loop over all ping sensors from the seeded state, then
decides the overall group status from the counters. -/
def NetworkGroupStatus.init (all_probe_ping_sensors : List Sensor)
    (site_pi_lte_dongle_sensor : Option Sensor) : NetworkGroupStatus :=
  let st := all_probe_ping_sensors.foldl networkGroupStep
    (networkSeedState site_pi_lte_dongle_sensor)
  { st with overall_status :=
      networkOverall st.up_devices st.warning_devices st.paused_devices st.down_devices }

/-- The `CloverGroupStatus` object of `src/commands/status.py` after
`__init__` has run. -/
structure CloverGroupStatus where
  name : String
  overall_status : OverallStatus
  up_clovers : Nat
  warning_clovers : Nat
  paused_clovers : Nat
  down_clovers : Nat
  total_clovers : Nat
deriving DecidableEq, Repr

/-- One iteration of the `for ping_sensor in all_probe_ping_sensors` loop in
`CloverGroupStatus.__init__` (status.py lines 343-363): sensors whose device
group contains the Clover marker set the group name, increment exactly one
status counter per the inlined classification chain `cloverStatusClassify`,
and increment the total count. -/
def cloverGroupStep (st : CloverGroupStatus) (s : Sensor) : CloverGroupStatus :=
  if strContains s.device_group CLOVER_DEVICES_MARKER then
    let st1 := { st with name := s.device_group }
    let st2 :=
      match cloverStatusClassify s.status_int with
      | OverallStatus.healthy => { st1 with up_clovers := st1.up_clovers + 1 }
      | OverallStatus.degraded => { st1 with warning_clovers := st1.warning_clovers + 1 }
      | OverallStatus.paused => { st1 with paused_clovers := st1.paused_clovers + 1 }
      | _ => { st1 with down_clovers := st1.down_clovers + 1 }
    { st2 with total_clovers := st2.total_clovers + 1 }
  else st

/-- The group-tier decision of `CloverGroupStatus.__init__` (status.py lines
365-388), including the zero-total guard; Python float division is modelled
with exact rational arithmetic. -/
def cloverOverall (up_clovers warning_clovers paused_clovers down_clovers
    total_clovers : Nat) : OverallStatus :=
  if total_clovers = 0 then OverallStatus.unknown
  else
    let percent_of_online_clovers : ℚ :=
      ((up_clovers : ℚ) / (total_clovers : ℚ)) * 100
    if percent_of_online_clovers ≥ 90 then OverallStatus.healthy
    else if percent_of_online_clovers ≥ 80 ∨
        warning_clovers > up_clovers + down_clovers + paused_clovers then
      OverallStatus.degraded
    else if paused_clovers > up_clovers + down_clovers + warning_clovers then
      OverallStatus.paused
    else if percent_of_online_clovers < 80 then OverallStatus.critical
    else OverallStatus.unknown

/-- `CloverGroupStatus.__init__` (status.py lines 333-388): folds the
count loop over all ping sensors; with no Clovers the name is reset to the
empty string and the status is Unknown, otherwise the status is decided
from the up-percentage and the counters. -/
def CloverGroupStatus.init (all_probe_ping_sensors : List Sensor) : CloverGroupStatus :=
  let st := all_probe_ping_sensors.foldl cloverGroupStep
    ⟨"", OverallStatus.unknown, 0, 0, 0, 0, 0⟩
  if st.total_clovers = 0 then
    { st with name := "", overall_status := OverallStatus.unknown }
  else
    { st with overall_status :=
        (cloverOverall st.up_clovers st.warning_clovers st.paused_clovers
          st.down_clovers st.total_clovers) }

/-- `normalize_overall_site_status` (status.py lines 464-496): reconciles
the probe's overall status with the network and Clover group statuses; the
Python function mutates `probe_device.overall_status`, modelled here by
returning the updated probe object. -/
def normalize_overall_site_status (probe_device : ProbeDeviceStatus)
    (network_devices : NetworkGroupStatus) (clover_devices : CloverGroupStatus) :
    ProbeDeviceStatus :=
  if probe_device.overall_status = OverallStatus.healthy then
    if network_devices.overall_status = OverallStatus.critical ∨
        clover_devices.overall_status = OverallStatus.critical then
      { probe_device with overall_status := OverallStatus.critical }
    else if network_devices.overall_status = OverallStatus.degraded ∨
        clover_devices.overall_status = OverallStatus.degraded then
      { probe_device with overall_status := OverallStatus.degraded }
    else if network_devices.overall_status = OverallStatus.paused ∧
        clover_devices.overall_status = OverallStatus.paused then
      { probe_device with overall_status := OverallStatus.paused }
    else probe_device
  else if probe_device.overall_status = OverallStatus.degraded then
    if network_devices.overall_status = OverallStatus.paused ∧
        clover_devices.overall_status = OverallStatus.paused then
      { probe_device with overall_status := OverallStatus.paused }
    else if network_devices.overall_status = OverallStatus.critical ∨
        network_devices.overall_status = OverallStatus.degraded ∨
        clover_devices.overall_status = OverallStatus.critical ∨
        clover_devices.overall_status = OverallStatus.degraded then
      { probe_device with overall_status := OverallStatus.critical }
    else probe_device
  else probe_device

/-- `THREE_DIGITS_REGEX.match` from `src/services/constants.py`: the Python
call `re.match('[0-9]\x7b3\x7d', s)` anchors only at the start of the
string, so it succeeds exactly when the first three characters exist and
are ASCII digits (trailing characters are not examined). -/
def threeDigitsMatch (s : String) : Bool :=
  match s.toList with
  | c0 :: c1 :: c2 :: _ => c0.isDigit && c1.isDigit && c2.isDigit
  | _ => false

/-- An ASCII character of the regex class `[0-9a-f]`. -/
def isHexLower (c : Char) : Bool :=
  c.isDigit || ('a' ≤ c && c ≤ 'f')

/-- `MAC_ADDRESS_REGEX.match` from `src/services/constants.py`: the Python
call `re.match('([0-9a-f]\x7b2\x7d:)\x7b5\x7d[0-9a-f]\x7b2\x7d', s)`
anchors only at the start of the string, so it succeeds exactly when the
first 17 characters exist and form six lowercase hex byte-pairs separated
by colons (trailing characters are not examined). -/
def macAddressMatch (s : String) : Bool :=
  match s.toList with
  | a1 :: a2 :: k1 :: b1 :: b2 :: k2 :: c1 :: c2 :: k3 :: d1 :: d2 :: k4 ::
      e1 :: e2 :: k5 :: f1 :: f2 :: _ =>
    isHexLower a1 && isHexLower a2 && (k1 == ':') &&
    isHexLower b1 && isHexLower b2 && (k2 == ':') &&
    isHexLower c1 && isHexLower c2 && (k3 == ':') &&
    isHexLower d1 && isHexLower d2 && (k4 == ':') &&
    isHexLower e1 && isHexLower e2 && (k5 == ':') &&
    isHexLower f1 && isHexLower f2
  | _ => false

/-- `is_valid_argument` from `src/commands/status.py` (lines 418-461): the
argument list must have exactly 3 entries and the stripped third entry must
match the three-digit regex (the Python `None` guard has no counterpart for
a Lean list value). -/
def status_is_valid_argument (arguments : List String) : Bool :=
  if arguments.length > 3 then false
  else if arguments.length < 3 then false
  else threeDigitsMatch (pyStrip (arguments.getD 2 ""))

/-- The sensor-lookup behavior of `execute` in `src/commands/status.py`
(lines 607-637): the argument list is validated first and an invalid list
causes an early return, so PRTG sensor lookups (modelled as the list of
site ids queried) are issued only for valid arguments. -/
def statusExecuteLookups (arguments : List String) : List String :=
  if status_is_valid_argument arguments then [pyStrip (arguments.getD 2 "")] else []

/-- `is_valid_argument` from `src/commands/wifi.py` (lines 14-56): the
argument list must have exactly 3 entries and the stripped, lower-cased
third entry must match the MAC-address regex. -/
def wifi_is_valid_argument (arguments : List String) : Bool :=
  if arguments.length > 3 then false
  else if arguments.length < 3 then false
  else macAddressMatch (pyLower (pyStrip (arguments.getD 2 "")))

/-- How much a single sensor adds to `up_devices` in the network loop: 1 for
a marker-matching, role-recognized sensor classified Healthy, else 0. -/
def networkUpContrib (s : Sensor) : Nat :=
  if strContains s.device_group NETWORK_DEVICES_MARKER then
    match networkRoleOf s with
    | none => 0
    | some _ =>
      match networkStatusClassify s.status_int with
      | OverallStatus.healthy => 1
      | _ => 0
  else 0

/-- How much a single sensor adds to `warning_devices` in the network loop. -/
def networkWarningContrib (s : Sensor) : Nat :=
  if strContains s.device_group NETWORK_DEVICES_MARKER then
    match networkRoleOf s with
    | none => 0
    | some _ =>
      match networkStatusClassify s.status_int with
      | OverallStatus.degraded => 1
      | _ => 0
  else 0

/-- How much a single sensor adds to `paused_devices` in the network loop. -/
def networkPausedContrib (s : Sensor) : Nat :=
  if strContains s.device_group NETWORK_DEVICES_MARKER then
    match networkRoleOf s with
    | none => 0
    | some _ =>
      match networkStatusClassify s.status_int with
      | OverallStatus.paused => 1
      | _ => 0
  else 0

/-- How much a single sensor adds to `down_devices` in the network loop. -/
def networkDownContrib (s : Sensor) : Nat :=
  if strContains s.device_group NETWORK_DEVICES_MARKER then
    match networkRoleOf s with
    | none => 0
    | some _ =>
      match networkStatusClassify s.status_int with
      | OverallStatus.healthy => 0
      | OverallStatus.degraded => 0
      | OverallStatus.paused => 0
      | _ => 1
  else 0

/-- How much a single sensor adds to `up_clovers` in the Clover loop. -/
def cloverUpContrib (s : Sensor) : Nat :=
  if strContains s.device_group CLOVER_DEVICES_MARKER then
    match cloverStatusClassify s.status_int with
    | OverallStatus.healthy => 1
    | _ => 0
  else 0

/-- How much a single sensor adds to `warning_clovers` in the Clover loop. -/
def cloverWarningContrib (s : Sensor) : Nat :=
  if strContains s.device_group CLOVER_DEVICES_MARKER then
    match cloverStatusClassify s.status_int with
    | OverallStatus.degraded => 1
    | _ => 0
  else 0

/-- How much a single sensor adds to `paused_clovers` in the Clover loop. -/
def cloverPausedContrib (s : Sensor) : Nat :=
  if strContains s.device_group CLOVER_DEVICES_MARKER then
    match cloverStatusClassify s.status_int with
    | OverallStatus.paused => 1
    | _ => 0
  else 0

/-- How much a single sensor adds to `down_clovers` in the Clover loop. -/
def cloverDownContrib (s : Sensor) : Nat :=
  if strContains s.device_group CLOVER_DEVICES_MARKER then
    match cloverStatusClassify s.status_int with
    | OverallStatus.healthy => 0
    | OverallStatus.degraded => 0
    | OverallStatus.paused => 0
    | _ => 1
  else 0

/-- How much a single sensor adds to `total_clovers` in the Clover loop. -/
def cloverTotalContrib (s : Sensor) : Nat :=
  if strContains s.device_group CLOVER_DEVICES_MARKER then 1 else 0

/-- A sample Clover ping sensor with the given status code, used for
concrete instances of the Clover-group decision rules. -/
def demoClover (code : Int) : Sensor :=
  ⟨"clover terminal", "001 Clover Devices", "", code⟩

/-- A sample network ping sensor with the given device name and status
code, used for concrete instances of the infrastructure decision rules. -/
def demoNet (device_name : String) (code : Int) : Sensor :=
  ⟨device_name, "001 Network Devices", "", code⟩

/-- One network-loop iteration adds exactly the per-sensor contribution to
each of the four status counters. -/
theorem networkGroupStep_counts (st : NetworkGroupStatus) (s : Sensor) :
    (networkGroupStep st s).up_devices = st.up_devices + networkUpContrib s ∧
    (networkGroupStep st s).warning_devices = st.warning_devices + networkWarningContrib s ∧
    (networkGroupStep st s).paused_devices = st.paused_devices + networkPausedContrib s ∧
    (networkGroupStep st s).down_devices = st.down_devices + networkDownContrib s := by
  by_cases hm : strContains s.device_group NETWORK_DEVICES_MARKER = true
  · simp only [networkGroupStep, networkUpContrib, networkWarningContrib,
      networkPausedContrib, networkDownContrib, hm, if_true]
    cases hr : networkRoleOf s with
    | none => simp
    | some r =>
      cases hc : networkStatusClassify s.status_int <;> cases r <;>
        simp [networkCountSensor, networkSetRole, hc]
  · simp [networkGroupStep, networkUpContrib, networkWarningContrib,
      networkPausedContrib, networkDownContrib, hm]

/-- One Clover-loop iteration adds exactly the per-sensor contribution to
each of the four status counters and to the total count. -/
theorem cloverGroupStep_counts (st : CloverGroupStatus) (s : Sensor) :
    (cloverGroupStep st s).up_clovers = st.up_clovers + cloverUpContrib s ∧
    (cloverGroupStep st s).warning_clovers = st.warning_clovers + cloverWarningContrib s ∧
    (cloverGroupStep st s).paused_clovers = st.paused_clovers + cloverPausedContrib s ∧
    (cloverGroupStep st s).down_clovers = st.down_clovers + cloverDownContrib s ∧
    (cloverGroupStep st s).total_clovers = st.total_clovers + cloverTotalContrib s := by
  by_cases hm : strContains s.device_group CLOVER_DEVICES_MARKER = true
  · simp only [cloverGroupStep, cloverUpContrib, cloverWarningContrib,
      cloverPausedContrib, cloverDownContrib, cloverTotalContrib, hm, if_true]
    cases hc : cloverStatusClassify s.status_int <;> simp [hc]
  · simp [cloverGroupStep, cloverUpContrib, cloverWarningContrib,
      cloverPausedContrib, cloverDownContrib, cloverTotalContrib, hm]

/-- The folded network loop adds the sum of the per-sensor contributions to
each counter of the starting state. -/
theorem networkFold_counts (l : List Sensor) (st : NetworkGroupStatus) :
    ((l.foldl networkGroupStep st).up_devices
      = st.up_devices + (l.map networkUpContrib).sum) ∧
    ((l.foldl networkGroupStep st).warning_devices
      = st.warning_devices + (l.map networkWarningContrib).sum) ∧
    ((l.foldl networkGroupStep st).paused_devices
      = st.paused_devices + (l.map networkPausedContrib).sum) ∧
    ((l.foldl networkGroupStep st).down_devices
      = st.down_devices + (l.map networkDownContrib).sum) := by
  induction l generalizing st with
  | nil => simp
  | cons a l ih =>
    simp only [List.foldl_cons, List.map_cons, List.sum_cons]
    obtain ⟨h1, h2, h3, h4⟩ := networkGroupStep_counts st a
    obtain ⟨g1, g2, g3, g4⟩ := ih (networkGroupStep st a)
    refine ⟨?_, ?_, ?_, ?_⟩
    · rw [g1, h1]; omega
    · rw [g2, h2]; omega
    · rw [g3, h3]; omega
    · rw [g4, h4]; omega

/-- The folded Clover loop adds the sum of the per-sensor contributions to
each counter of the starting state. -/
theorem cloverFold_counts (l : List Sensor) (st : CloverGroupStatus) :
    ((l.foldl cloverGroupStep st).up_clovers
      = st.up_clovers + (l.map cloverUpContrib).sum) ∧
    ((l.foldl cloverGroupStep st).warning_clovers
      = st.warning_clovers + (l.map cloverWarningContrib).sum) ∧
    ((l.foldl cloverGroupStep st).paused_clovers
      = st.paused_clovers + (l.map cloverPausedContrib).sum) ∧
    ((l.foldl cloverGroupStep st).down_clovers
      = st.down_clovers + (l.map cloverDownContrib).sum) ∧
    ((l.foldl cloverGroupStep st).total_clovers
      = st.total_clovers + (l.map cloverTotalContrib).sum) := by
  induction l generalizing st with
  | nil => simp
  | cons a l ih =>
    simp only [List.foldl_cons, List.map_cons, List.sum_cons]
    obtain ⟨h1, h2, h3, h4, h5⟩ := cloverGroupStep_counts st a
    obtain ⟨g1, g2, g3, g4, g5⟩ := ih (cloverGroupStep st a)
    refine ⟨?_, ?_, ?_, ?_, ?_⟩
    · rw [g1, h1]; omega
    · rw [g2, h2]; omega
    · rw [g3, h3]; omega
    · rw [g4, h4]; omega
    · rw [g5, h5]; omega

/-- The network group's overall status is exactly the decision chain
applied to its own four counters. -/
theorem networkInit_overall (l : List Sensor) (d : Option Sensor) :
    (NetworkGroupStatus.init l d).overall_status =
      networkOverall (NetworkGroupStatus.init l d).up_devices
        (NetworkGroupStatus.init l d).warning_devices
        (NetworkGroupStatus.init l d).paused_devices
        (NetworkGroupStatus.init l d).down_devices := rfl

/-- The Clover group's overall status is exactly the guarded decision chain
applied to its own counters and total. -/
theorem cloverInit_overall (l : List Sensor) :
    (CloverGroupStatus.init l).overall_status =
      cloverOverall (CloverGroupStatus.init l).up_clovers
        (CloverGroupStatus.init l).warning_clovers
        (CloverGroupStatus.init l).paused_clovers
        (CloverGroupStatus.init l).down_clovers
        (CloverGroupStatus.init l).total_clovers := by
  simp only [CloverGroupStatus.init]
  split_ifs with h
  · simp [cloverOverall, h]
  · simp

/-- The network group's counters are the dongle seed plus the contribution
sums over the input sensor list. -/
theorem networkInit_counts (l : List Sensor) (d : Option Sensor) :
    ((NetworkGroupStatus.init l d).up_devices
      = (networkSeedState d).up_devices + (l.map networkUpContrib).sum) ∧
    ((NetworkGroupStatus.init l d).warning_devices = (l.map networkWarningContrib).sum) ∧
    ((NetworkGroupStatus.init l d).paused_devices = (l.map networkPausedContrib).sum) ∧
    ((NetworkGroupStatus.init l d).down_devices = (l.map networkDownContrib).sum) := by
  obtain ⟨h1, h2, h3, h4⟩ := networkFold_counts l (networkSeedState d)
  simp only [NetworkGroupStatus.init]
  refine ⟨h1, ?_, ?_, ?_⟩
  · rw [h2]; simp [networkSeedState]
  · rw [h3]; simp [networkSeedState]
  · rw [h4]; simp [networkSeedState]

/-- The Clover group's counters and total are the contribution sums over
the input sensor list. -/
theorem cloverInit_counts (l : List Sensor) :
    ((CloverGroupStatus.init l).up_clovers = (l.map cloverUpContrib).sum) ∧
    ((CloverGroupStatus.init l).warning_clovers = (l.map cloverWarningContrib).sum) ∧
    ((CloverGroupStatus.init l).paused_clovers = (l.map cloverPausedContrib).sum) ∧
    ((CloverGroupStatus.init l).down_clovers = (l.map cloverDownContrib).sum) ∧
    ((CloverGroupStatus.init l).total_clovers = (l.map cloverTotalContrib).sum) := by
  obtain ⟨h1, h2, h3, h4, h5⟩ := cloverFold_counts l ⟨"", OverallStatus.unknown, 0, 0, 0, 0, 0⟩
  simp only [CloverGroupStatus.init]
  split_ifs with h <;> refine ⟨?_, ?_, ?_, ?_, ?_⟩ <;>
    simp only [h1, h2, h3, h4, h5] <;> simp

/-- C1: for every probe status, network-group status, and Clover-group
status, the site normalizer returns the final tier given by the precedence
table evaluated only from the probe's current tier: probe Healthy is
overridden by a Critical, Degraded, or doubly-Paused group; probe Degraded
becomes Paused when both groups are Paused, Critical when either group is
Critical or Degraded; a probe tier of Paused, Critical, or Unknown is
returned unchanged. -/
theorem C1_normalize_precedence_table (p : ProbeDeviceStatus)
    (n : NetworkGroupStatus) (c : CloverGroupStatus) :
    (normalize_overall_site_status p n c).overall_status =
      (if p.overall_status = OverallStatus.healthy then
        (if n.overall_status = OverallStatus.critical ∨
            c.overall_status = OverallStatus.critical then OverallStatus.critical
         else if n.overall_status = OverallStatus.degraded ∨
            c.overall_status = OverallStatus.degraded then OverallStatus.degraded
         else if n.overall_status = OverallStatus.paused ∧
            c.overall_status = OverallStatus.paused then OverallStatus.paused
         else OverallStatus.healthy)
       else if p.overall_status = OverallStatus.degraded then
        (if n.overall_status = OverallStatus.paused ∧
            c.overall_status = OverallStatus.paused then OverallStatus.paused
         else if (n.overall_status = OverallStatus.critical ∨
              n.overall_status = OverallStatus.degraded) ∨
            (c.overall_status = OverallStatus.critical ∨
              c.overall_status = OverallStatus.degraded) then OverallStatus.critical
         else OverallStatus.degraded)
       else p.overall_status) := by
  cases hp : p.overall_status <;> cases hn : n.overall_status <;>
    cases hc : c.overall_status <;>
      simp [normalize_overall_site_status, hp, hn, hc]

/-- C2: the status classification is total over the integers, is the same
chain at the probe, network-group, and Clover-group call sites, and maps
code 3 to Healthy, codes 2, 4, 6, 10, 11, 14 to Degraded, codes 7, 8, 9,
12 to Paused, and every other integer (explicitly including 0, 1, 5 and
13) to Critical. -/
theorem C2_classifier_table (n : Int) :
    probeStatusClassify n = networkStatusClassify n ∧
    probeStatusClassify n = cloverStatusClassify n ∧
    probeStatusClassify n =
      (if n = 3 then OverallStatus.healthy
       else if n = 2 ∨ n = 4 ∨ n = 6 ∨ n = 10 ∨ n = 11 ∨ n = 14 then
         OverallStatus.degraded
       else if n = 7 ∨ n = 8 ∨ n = 9 ∨ n = 12 then OverallStatus.paused
       else OverallStatus.critical) ∧
    probeStatusClassify 0 = OverallStatus.critical ∧
    probeStatusClassify 1 = OverallStatus.critical ∧
    probeStatusClassify 5 = OverallStatus.critical ∧
    probeStatusClassify 13 = OverallStatus.critical := by
  refine ⟨rfl, rfl, ?_, by decide, by decide, by decide, by decide⟩
  simp only [probeStatusClassify, List.mem_cons, List.not_mem_nil, or_false]

/-- C3: with a healthy probe (health code 3) and a non-3 interface code,
the failover description and tier override depend on the `'LTE Only'`
marker in the health sensor's device group; with a non-3 health code the
description is `Site is down` and the tier keeps the base classification
of the health code. -/
theorem C3_probe_failover (hs ps : Sensor) :
    (hs.status_int = 3 → ps.status_int ≠ 3 →
      (strContains hs.device_group "LTE Only" = false →
        (ProbeDeviceStatus.init hs ps).primary_interface_description =
          "Site has failed over to LTE connection" ∧
        (ProbeDeviceStatus.init hs ps).overall_status = OverallStatus.degraded) ∧
      (strContains hs.device_group "LTE Only" = true →
        (ProbeDeviceStatus.init hs ps).primary_interface_description =
          "Site is on LTE connection" ∧
        (ProbeDeviceStatus.init hs ps).overall_status = OverallStatus.healthy)) ∧
    (hs.status_int ≠ 3 →
      (ProbeDeviceStatus.init hs ps).primary_interface_description = "Site is down" ∧
      (ProbeDeviceStatus.init hs ps).overall_status =
        probeStatusClassify hs.status_int) := by
  constructor
  · intro h3 hi
    constructor
    · intro hlte
      simp [ProbeDeviceStatus.init, h3, hi, hlte, probeStatusClassify]
    · intro hlte
      simp [ProbeDeviceStatus.init, h3, hi, hlte, probeStatusClassify]
  · intro h3
    simp [ProbeDeviceStatus.init, h3]

/-- Witness for C3 at a concrete healthy probe whose interface sensor is
down at a non-LTE-only site: the description reports a failover and the
tier is forced to Degraded. -/
theorem C3_probe_failover_witness :
    (ProbeDeviceStatus.init ⟨"probe device", "001 Site", "", 3⟩
      ⟨"iface", "001 Site", "", 5⟩).primary_interface_description =
        "Site has failed over to LTE connection" ∧
    (ProbeDeviceStatus.init ⟨"probe device", "001 Site", "", 3⟩
      ⟨"iface", "001 Site", "", 5⟩).overall_status = OverallStatus.degraded :=
  ((C3_probe_failover ⟨"probe device", "001 Site", "", 3⟩
    ⟨"iface", "001 Site", "", 5⟩).1 (by decide) (by decide)).1 (by decide)

/-- C4: the infrastructure group tier is decided from the four counters in
order with first match winning (up = 7 Healthy; up = 6 or warning
dominance Degraded; paused dominance Paused; up at most 5 Critical;
otherwise Unknown); in particular all 7 devices up (6 named roles plus the
dongle) is Healthy, exactly 6 up is Degraded, and 5 up with no warning or
paused dominance is Critical. -/
theorem C4_network_tier_decision :
    (∀ (sensors : List Sensor) (dongle : Option Sensor),
      (NetworkGroupStatus.init sensors dongle).overall_status =
        (if (NetworkGroupStatus.init sensors dongle).up_devices = 7 then
          OverallStatus.healthy
         else if (NetworkGroupStatus.init sensors dongle).up_devices = 6 ∨
            (NetworkGroupStatus.init sensors dongle).warning_devices >
              (NetworkGroupStatus.init sensors dongle).up_devices +
              (NetworkGroupStatus.init sensors dongle).paused_devices +
              (NetworkGroupStatus.init sensors dongle).down_devices then
          OverallStatus.degraded
         else if (NetworkGroupStatus.init sensors dongle).paused_devices >
            (NetworkGroupStatus.init sensors dongle).up_devices +
            (NetworkGroupStatus.init sensors dongle).warning_devices +
            (NetworkGroupStatus.init sensors dongle).down_devices then
          OverallStatus.paused
         else if (NetworkGroupStatus.init sensors dongle).up_devices ≤ 5 then
          OverallStatus.critical
         else OverallStatus.unknown)) ∧
    (NetworkGroupStatus.init
      [demoNet "meraki ap" 3, demoNet "router" 3, demoNet "pdu" 3,
       demoNet "vitupay" 3, demoNet "pi" 3, demoNet "d.clover.com" 3]
      (some ⟨"dongle", "PI - LTE", "", 3⟩)).overall_status =
        OverallStatus.healthy ∧
    (NetworkGroupStatus.init
      [demoNet "meraki ap" 3, demoNet "router" 3, demoNet "pdu" 3,
       demoNet "vitupay" 3, demoNet "pi" 3, demoNet "d.clover.com" 5]
      (some ⟨"dongle", "PI - LTE", "", 3⟩)).overall_status =
        OverallStatus.degraded ∧
    (NetworkGroupStatus.init
      [demoNet "meraki ap" 3, demoNet "router" 3, demoNet "pdu" 3,
       demoNet "vitupay" 3, demoNet "pi" 5, demoNet "d.clover.com" 5]
      (some ⟨"dongle", "PI - LTE", "", 3⟩)).overall_status =
        OverallStatus.critical :=
  ⟨fun sensors dongle => networkInit_overall sensors dongle,
    by decide, by decide, by decide⟩

/-- C5: for every sensor list whose Clover group is non-empty, the Clover
group tier is decided first-match from the exact up-percentage and the
counters (at least 90 percent Healthy; at least 80 percent or warning
dominance Degraded; paused dominance Paused; otherwise Critical — the
Unknown fallback of the code is unreachable); in particular 9 of 10 up is
Healthy, 8 of 10 up is Degraded, and 7 of 10 up is Critical. -/
theorem C5_clover_tier_decision :
    (∀ sensors : List Sensor,
      (CloverGroupStatus.init sensors).total_clovers ≠ 0 →
      (CloverGroupStatus.init sensors).overall_status =
        (if (((CloverGroupStatus.init sensors).up_clovers : ℚ) /
              ((CloverGroupStatus.init sensors).total_clovers : ℚ)) * 100 ≥ 90 then
          OverallStatus.healthy
         else if (((CloverGroupStatus.init sensors).up_clovers : ℚ) /
              ((CloverGroupStatus.init sensors).total_clovers : ℚ)) * 100 ≥ 80 ∨
            (CloverGroupStatus.init sensors).warning_clovers >
              (CloverGroupStatus.init sensors).up_clovers +
              (CloverGroupStatus.init sensors).down_clovers +
              (CloverGroupStatus.init sensors).paused_clovers then
          OverallStatus.degraded
         else if (CloverGroupStatus.init sensors).paused_clovers >
            (CloverGroupStatus.init sensors).up_clovers +
            (CloverGroupStatus.init sensors).down_clovers +
            (CloverGroupStatus.init sensors).warning_clovers then
          OverallStatus.paused
         else OverallStatus.critical)) ∧
    (CloverGroupStatus.init
      (List.replicate 9 (demoClover 3) ++ [demoClover 5])).overall_status =
        OverallStatus.healthy ∧
    (CloverGroupStatus.init
      (List.replicate 8 (demoClover 3) ++ List.replicate 2 (demoClover 5))).overall_status =
        OverallStatus.degraded ∧
    (CloverGroupStatus.init
      (List.replicate 7 (demoClover 3) ++ List.replicate 3 (demoClover 5))).overall_status =
        OverallStatus.critical := by
  refine ⟨?_, ?_, ?_, ?_⟩
  · intro sensors h
    rw [cloverInit_overall]
    simp only [cloverOverall]
    rw [if_neg h]
    split_ifs with h1 h2 h3 h4
    · rfl
    · rfl
    · rfl
    · rfl
    · exact absurd (not_lt.mp h4) (not_or.mp h2).1
  · rw [cloverInit_overall]
    have h1 : (CloverGroupStatus.init
        (List.replicate 9 (demoClover 3) ++ [demoClover 5])).up_clovers = 9 := by decide
    have h2 : (CloverGroupStatus.init
        (List.replicate 9 (demoClover 3) ++ [demoClover 5])).warning_clovers = 0 := by decide
    have h3 : (CloverGroupStatus.init
        (List.replicate 9 (demoClover 3) ++ [demoClover 5])).paused_clovers = 0 := by decide
    have h4 : (CloverGroupStatus.init
        (List.replicate 9 (demoClover 3) ++ [demoClover 5])).down_clovers = 1 := by decide
    have h5 : (CloverGroupStatus.init
        (List.replicate 9 (demoClover 3) ++ [demoClover 5])).total_clovers = 10 := by decide
    rw [h1, h2, h3, h4, h5]
    norm_num [cloverOverall]
  · rw [cloverInit_overall]
    have h1 : (CloverGroupStatus.init
        (List.replicate 8 (demoClover 3) ++ List.replicate 2 (demoClover 5))).up_clovers
          = 8 := by decide
    have h2 : (CloverGroupStatus.init
        (List.replicate 8 (demoClover 3) ++ List.replicate 2 (demoClover 5))).warning_clovers
          = 0 := by decide
    have h3 : (CloverGroupStatus.init
        (List.replicate 8 (demoClover 3) ++ List.replicate 2 (demoClover 5))).paused_clovers
          = 0 := by decide
    have h4 : (CloverGroupStatus.init
        (List.replicate 8 (demoClover 3) ++ List.replicate 2 (demoClover 5))).down_clovers
          = 2 := by decide
    have h5 : (CloverGroupStatus.init
        (List.replicate 8 (demoClover 3) ++ List.replicate 2 (demoClover 5))).total_clovers
          = 10 := by decide
    rw [h1, h2, h3, h4, h5]
    norm_num [cloverOverall]
  · rw [cloverInit_overall]
    have h1 : (CloverGroupStatus.init
        (List.replicate 7 (demoClover 3) ++ List.replicate 3 (demoClover 5))).up_clovers
          = 7 := by decide
    have h2 : (CloverGroupStatus.init
        (List.replicate 7 (demoClover 3) ++ List.replicate 3 (demoClover 5))).warning_clovers
          = 0 := by decide
    have h3 : (CloverGroupStatus.init
        (List.replicate 7 (demoClover 3) ++ List.replicate 3 (demoClover 5))).paused_clovers
          = 0 := by decide
    have h4 : (CloverGroupStatus.init
        (List.replicate 7 (demoClover 3) ++ List.replicate 3 (demoClover 5))).down_clovers
          = 3 := by decide
    have h5 : (CloverGroupStatus.init
        (List.replicate 7 (demoClover 3) ++ List.replicate 3 (demoClover 5))).total_clovers
          = 10 := by decide
    rw [h1, h2, h3, h4, h5]
    norm_num [cloverOverall]

/-- Witness for C5 at a one-Clover site: the non-empty hypothesis is
discharged concretely and the decision equation is instantiated. -/
theorem C5_clover_tier_decision_witness :
    (CloverGroupStatus.init [demoClover 3]).overall_status =
      (if (((CloverGroupStatus.init [demoClover 3]).up_clovers : ℚ) /
            ((CloverGroupStatus.init [demoClover 3]).total_clovers : ℚ)) * 100 ≥ 90 then
        OverallStatus.healthy
       else if (((CloverGroupStatus.init [demoClover 3]).up_clovers : ℚ) /
            ((CloverGroupStatus.init [demoClover 3]).total_clovers : ℚ)) * 100 ≥ 80 ∨
          (CloverGroupStatus.init [demoClover 3]).warning_clovers >
            (CloverGroupStatus.init [demoClover 3]).up_clovers +
            (CloverGroupStatus.init [demoClover 3]).down_clovers +
            (CloverGroupStatus.init [demoClover 3]).paused_clovers then
        OverallStatus.degraded
       else if (CloverGroupStatus.init [demoClover 3]).paused_clovers >
          (CloverGroupStatus.init [demoClover 3]).up_clovers +
          (CloverGroupStatus.init [demoClover 3]).down_clovers +
          (CloverGroupStatus.init [demoClover 3]).warning_clovers then
        OverallStatus.paused
       else OverallStatus.critical) :=
  C5_clover_tier_decision.1 [demoClover 3] (by decide)

/-- C6: with no sensor matching the Clover group marker (the empty list
included), the Clover evaluator returns a zero total, an empty group name,
and the Unknown tier, with no division performed. -/
theorem C6_clover_empty (sensors : List Sensor)
    (h : ∀ s ∈ sensors, strContains s.device_group CLOVER_DEVICES_MARKER = false) :
    (CloverGroupStatus.init sensors).total_clovers = 0 ∧
    (CloverGroupStatus.init sensors).name = "" ∧
    (CloverGroupStatus.init sensors).overall_status = OverallStatus.unknown := by
  have hfold : (sensors.foldl cloverGroupStep
      ⟨"", OverallStatus.unknown, 0, 0, 0, 0, 0⟩).total_clovers = 0 := by
    obtain ⟨-, -, -, -, h5⟩ :=
      cloverFold_counts sensors ⟨"", OverallStatus.unknown, 0, 0, 0, 0, 0⟩
    rw [h5]
    have hz : (sensors.map cloverTotalContrib).sum = 0 := by
      apply List.sum_eq_zero
      intro x hx
      obtain ⟨s, hs, rfl⟩ := List.mem_map.mp hx
      simp [cloverTotalContrib, h s hs]
    rw [hz]
  refine ⟨?_, ?_, ?_⟩ <;> simp [CloverGroupStatus.init, hfold]

/-- Witness for C6 at a list holding one network sensor and no Clover
sensor. -/
theorem C6_clover_empty_witness :
    (CloverGroupStatus.init [demoNet "router" 3]).total_clovers = 0 ∧
    (CloverGroupStatus.init [demoNet "router" 3]).name = "" ∧
    (CloverGroupStatus.init [demoNet "router" 3]).overall_status =
      OverallStatus.unknown :=
  C6_clover_empty [demoNet "router" 3] (by decide)

/-- C7: permuting the input sensor list leaves every counter, the total
count, and the overall tier of both group evaluators unchanged. -/
theorem C7_order_independence (l1 l2 : List Sensor) (dongle : Option Sensor)
    (h : l1.Perm l2) :
    ((NetworkGroupStatus.init l1 dongle).up_devices =
        (NetworkGroupStatus.init l2 dongle).up_devices ∧
      (NetworkGroupStatus.init l1 dongle).warning_devices =
        (NetworkGroupStatus.init l2 dongle).warning_devices ∧
      (NetworkGroupStatus.init l1 dongle).paused_devices =
        (NetworkGroupStatus.init l2 dongle).paused_devices ∧
      (NetworkGroupStatus.init l1 dongle).down_devices =
        (NetworkGroupStatus.init l2 dongle).down_devices ∧
      (NetworkGroupStatus.init l1 dongle).overall_status =
        (NetworkGroupStatus.init l2 dongle).overall_status) ∧
    ((CloverGroupStatus.init l1).up_clovers = (CloverGroupStatus.init l2).up_clovers ∧
      (CloverGroupStatus.init l1).warning_clovers = (CloverGroupStatus.init l2).warning_clovers ∧
      (CloverGroupStatus.init l1).paused_clovers = (CloverGroupStatus.init l2).paused_clovers ∧
      (CloverGroupStatus.init l1).down_clovers = (CloverGroupStatus.init l2).down_clovers ∧
      (CloverGroupStatus.init l1).total_clovers = (CloverGroupStatus.init l2).total_clovers ∧
      (CloverGroupStatus.init l1).overall_status = (CloverGroupStatus.init l2).overall_status) := by
  have hsum : ∀ f : Sensor → Nat, (l1.map f).sum = (l2.map f).sum :=
    fun f => List.Perm.sum_eq (List.Perm.map f h)
  obtain ⟨n1, n2, n3, n4⟩ := networkInit_counts l1 dongle
  obtain ⟨m1, m2, m3, m4⟩ := networkInit_counts l2 dongle
  have hu : (NetworkGroupStatus.init l1 dongle).up_devices =
      (NetworkGroupStatus.init l2 dongle).up_devices := by rw [n1, m1, hsum]
  have hw : (NetworkGroupStatus.init l1 dongle).warning_devices =
      (NetworkGroupStatus.init l2 dongle).warning_devices := by rw [n2, m2, hsum]
  have hp : (NetworkGroupStatus.init l1 dongle).paused_devices =
      (NetworkGroupStatus.init l2 dongle).paused_devices := by rw [n3, m3, hsum]
  have hd : (NetworkGroupStatus.init l1 dongle).down_devices =
      (NetworkGroupStatus.init l2 dongle).down_devices := by rw [n4, m4, hsum]
  obtain ⟨p1, p2, p3, p4, p5⟩ := cloverInit_counts l1
  obtain ⟨q1, q2, q3, q4, q5⟩ := cloverInit_counts l2
  have cu : (CloverGroupStatus.init l1).up_clovers =
      (CloverGroupStatus.init l2).up_clovers := by rw [p1, q1, hsum]
  have cw : (CloverGroupStatus.init l1).warning_clovers =
      (CloverGroupStatus.init l2).warning_clovers := by rw [p2, q2, hsum]
  have cp : (CloverGroupStatus.init l1).paused_clovers =
      (CloverGroupStatus.init l2).paused_clovers := by rw [p3, q3, hsum]
  have cd : (CloverGroupStatus.init l1).down_clovers =
      (CloverGroupStatus.init l2).down_clovers := by rw [p4, q4, hsum]
  have ct : (CloverGroupStatus.init l1).total_clovers =
      (CloverGroupStatus.init l2).total_clovers := by rw [p5, q5, hsum]
  refine ⟨⟨hu, hw, hp, hd, ?_⟩, cu, cw, cp, cd, ct, ?_⟩
  · rw [networkInit_overall l1 dongle, networkInit_overall l2 dongle, hu, hw, hp, hd]
  · rw [cloverInit_overall l1, cloverInit_overall l2, cu, cw, cp, cd, ct]

/-- Witness for C7 at a concrete two-sensor list and its swap: the up
counters of the network evaluator agree. -/
theorem C7_order_independence_witness :
    (NetworkGroupStatus.init [demoNet "router" 3, demoClover 3]
      (some ⟨"dongle", "PI - LTE", "", 3⟩)).up_devices =
    (NetworkGroupStatus.init [demoClover 3, demoNet "router" 3]
      (some ⟨"dongle", "PI - LTE", "", 3⟩)).up_devices :=
  (C7_order_independence [demoNet "router" 3, demoClover 3]
    [demoClover 3, demoNet "router" 3]
    (some ⟨"dongle", "PI - LTE", "", 3⟩) (by decide)).1.1

/-- The three-digit regex match succeeds exactly when the string starts
with three ASCII digits (trailing characters unconstrained). -/
theorem threeDigitsMatch_iff (t : String) :
    threeDigitsMatch t = true ↔
      ∃ c0 c1 c2 rest, t.toList = c0 :: c1 :: c2 :: rest ∧
        c0.isDigit = true ∧ c1.isDigit = true ∧ c2.isDigit = true := by
  unfold threeDigitsMatch
  rcases ht : t.toList with - | ⟨c0, - | ⟨c1, - | ⟨c2, rest⟩⟩⟩
  · simp
  · simp
  · simp
  · constructor
    · intro hd
      simp only [Bool.and_eq_true] at hd
      exact ⟨c0, c1, c2, rest, rfl, hd.1.1, hd.1.2, hd.2⟩
    · rintro ⟨a0, a1, a2, r, heq, d0, d1, d2⟩
      simp only [List.cons.injEq] at heq
      obtain ⟨rfl, rfl, rfl, rfl⟩ := heq
      simp [Bool.and_eq_true, d0, d1, d2]

/-- The MAC-address regex match succeeds exactly when the string starts
with six colon-separated lowercase hex byte-pairs (trailing characters
unconstrained). -/
theorem macAddressMatch_iff (t : String) :
    macAddressMatch t = true ↔
      ∃ a1 a2 b1 b2 c1 c2 d1 d2 e1 e2 f1 f2 rest,
        t.toList = a1 :: a2 :: ':' :: b1 :: b2 :: ':' :: c1 :: c2 :: ':' ::
          d1 :: d2 :: ':' :: e1 :: e2 :: ':' :: f1 :: f2 :: rest ∧
        isHexLower a1 = true ∧ isHexLower a2 = true ∧
        isHexLower b1 = true ∧ isHexLower b2 = true ∧
        isHexLower c1 = true ∧ isHexLower c2 = true ∧
        isHexLower d1 = true ∧ isHexLower d2 = true ∧
        isHexLower e1 = true ∧ isHexLower e2 = true ∧
        isHexLower f1 = true ∧ isHexLower f2 = true := by
  unfold macAddressMatch
  split
  next a1 a2 k1 b1 b2 k2 c1 c2 k3 d1 d2 k4 e1 e2 k5 f1 f2 tail heq =>
    constructor
    · intro hd
      simp only [Bool.and_eq_true, beq_iff_eq] at hd
      refine ⟨a1, a2, b1, b2, c1, c2, d1, d2, e1, e2, f1, f2, tail,
        ?_, ?_, ?_, ?_, ?_, ?_, ?_, ?_, ?_, ?_, ?_, ?_, ?_⟩ <;> simp_all
    · rintro ⟨x1, x2, y1, y2, z1, z2, w1, w2, v1, v2, u1, u2, rest, heq2, hx⟩
      rw [heq] at heq2
      simp only [List.cons.injEq] at heq2
      obtain ⟨rfl, rfl, rfl, rfl, rfl, rfl, rfl, rfl, rfl, rfl, rfl, rfl, rfl,
        rfl, rfl, rfl, rfl, rfl⟩ := heq2
      simp_all
  next h =>
    constructor
    · intro hfalse
      exact absurd hfalse (by simp)
    · rintro ⟨x1, x2, y1, y2, z1, z2, w1, w2, v1, v2, u1, u2, rest, heq2, hx⟩
      exact absurd heq2
        (by exact h x1 x2 ':' y1 y2 ':' z1 z2 ':' w1 w2 ':' v1 v2 ':' u1 u2 rest)

/-- Counterexample for C8: the status validator accepts the four-digit
site id `1234` and the digit-prefixed `123abc`, because the regex match is
anchored only at the start of the string; the claim's
"exactly 3 ASCII digits, no longer strings, no trailing non-digit
characters" is therefore false of the code. -/
theorem C8_counterexample :
    status_is_valid_argument ["@vitubot", "status", "1234"] = true ∧
    status_is_valid_argument ["@vitubot", "status", "123abc"] = true ∧
    (pyStrip "1234").toList.length = 4 ∧
    ¬(∀ c ∈ (pyStrip "123abc").toList, c.isDigit = true) :=
  ⟨by decide, by decide, by decide, by decide⟩

/-- C8 (amended): the status command accepts a three-element argument list
exactly when the stripped third element starts with three ASCII digits
(longer strings and trailing non-digits are accepted); lists whose length
is not 3 are rejected, and no sensor lookup is issued for a rejected
argument list. -/
theorem C8_amended_validation :
    (∀ a b s : String,
      status_is_valid_argument [a, b, s] = true ↔
        ∃ c0 c1 c2 rest, (pyStrip s).toList = c0 :: c1 :: c2 :: rest ∧
          c0.isDigit = true ∧ c1.isDigit = true ∧ c2.isDigit = true) ∧
    (∀ arguments : List String, arguments.length ≠ 3 →
      status_is_valid_argument arguments = false) ∧
    (∀ arguments : List String, status_is_valid_argument arguments = false →
      statusExecuteLookups arguments = []) := by
  refine ⟨?_, ?_, ?_⟩
  · intro a b s
    rw [← threeDigitsMatch_iff]
    simp [status_is_valid_argument]
  · intro arguments hlen
    unfold status_is_valid_argument
    split_ifs with h1 h2
    · rfl
    · rfl
    · omega
  · intro arguments hv
    simp [statusExecuteLookups, hv]

/-- Witness for C8 (amended): the canonical three-digit id `123` is
accepted, through the amended characterization. -/
theorem C8_amended_validation_witness :
    status_is_valid_argument ["@vitubot", "status", "123"] = true :=
  (C8_amended_validation.1 "@vitubot" "status" "123").mpr
    ⟨'1', '2', '3', [], by decide, by decide, by decide, by decide⟩

/-- Counterexample for C9: the wifi validator rejects the hyphenated form
`AA-BB-CC-DD-EE-FF` (the command never normalizes hyphens to colons) and
accepts `aa:bb:cc:dd:ee:ff:00` with a seventh trailing byte-pair (the
regex match is anchored only at the start), so the claim's
"exactly 6 colon-separated pairs after hyphen normalization" is false of
the code in both directions. -/
theorem C9_counterexample :
    wifi_is_valid_argument ["@vitubot", "wifi", "AA-BB-CC-DD-EE-FF"] = false ∧
    wifi_is_valid_argument ["@vitubot", "wifi", "aa:bb:cc:dd:ee:ff:00"] = true :=
  ⟨by decide, by decide⟩

/-- C9 (amended): the wifi command accepts a three-element argument list
exactly when the stripped, lower-cased third element starts with six
colon-separated lowercase hex byte-pairs (hyphens are not normalized and
trailing characters are accepted); lists whose length is not 3 are
rejected. -/
theorem C9_amended_validation :
    (∀ a b s : String,
      wifi_is_valid_argument [a, b, s] = true ↔
        ∃ a1 a2 b1 b2 c1 c2 d1 d2 e1 e2 f1 f2 rest,
          (pyLower (pyStrip s)).toList =
            a1 :: a2 :: ':' :: b1 :: b2 :: ':' :: c1 :: c2 :: ':' ::
            d1 :: d2 :: ':' :: e1 :: e2 :: ':' :: f1 :: f2 :: rest ∧
          isHexLower a1 = true ∧ isHexLower a2 = true ∧
          isHexLower b1 = true ∧ isHexLower b2 = true ∧
          isHexLower c1 = true ∧ isHexLower c2 = true ∧
          isHexLower d1 = true ∧ isHexLower d2 = true ∧
          isHexLower e1 = true ∧ isHexLower e2 = true ∧
          isHexLower f1 = true ∧ isHexLower f2 = true) ∧
    (∀ arguments : List String, arguments.length ≠ 3 →
      wifi_is_valid_argument arguments = false) := by
  refine ⟨?_, ?_⟩
  · intro a b s
    rw [← macAddressMatch_iff]
    simp [wifi_is_valid_argument]
  · intro arguments hlen
    unfold wifi_is_valid_argument
    split_ifs with h1 h2
    · rfl
    · rfl
    · omega

/-- Witness for C9 (amended): the canonical colon-separated lowercase
address is accepted, through the amended characterization. -/
theorem C9_amended_validation_witness :
    wifi_is_valid_argument ["@vitubot", "wifi", "aa:bb:cc:dd:ee:ff"] = true :=
  (C9_amended_validation.1 "@vitubot" "wifi" "aa:bb:cc:dd:ee:ff").mpr
    ⟨'a', 'a', 'b', 'b', 'c', 'c', 'd', 'd', 'e', 'e', 'f', 'f', [],
      by decide, by decide, by decide, by decide, by decide, by decide, by decide,
      by decide, by decide, by decide, by decide, by decide, by decide⟩

/-- C10: eight sensors all named `router` in the network group with status
code 3 each increment the up counter once (the role field keeps only the
last match), so the up count reaches 8, every branch of the tier decision
chain fails, and the group tier is Unknown. -/
theorem C10_duplicate_roles_unknown :
    (NetworkGroupStatus.init
      (List.replicate 8 (⟨"router", "001 Network Devices", "", 3⟩ : Sensor))
      none).up_devices = 8 ∧
    (NetworkGroupStatus.init
      (List.replicate 8 (⟨"router", "001 Network Devices", "", 3⟩ : Sensor))
      none).router = some (⟨"router", "001 Network Devices", "", 3⟩ : Sensor) ∧
    (NetworkGroupStatus.init
      (List.replicate 8 (⟨"router", "001 Network Devices", "", 3⟩ : Sensor))
      none).overall_status = OverallStatus.unknown :=
  ⟨by decide, by decide, by decide⟩
